import Mathlib

/-!
Shallow embedding of the WGpuPlayground rendering host (src/lib.rs).

The program owns a window, a GPU presentation surface and a fixed render
pipeline; an event loop dispatches window events, redraw requests and a
drained-events notification.  GPU handles (surface, device, queue, window,
pipeline) are opaque; their observable behaviour is captured by an explicit
trace of effects emitted by each operation.  Fallible parts (capability
indexing that would panic on an empty list) are modelled with `Option`.
-/

/-- Physical pixel size of the window (winit::dpi::PhysicalSize<u32>). -/
structure PhysicalSize where
  width : Nat
  height : Nat
deriving DecidableEq, Repr

/-- Surface texture format; only its identity and sRGB-ness are observable. -/
structure TextureFormat where
  id : Nat
  srgb : Bool
deriving DecidableEq, Repr

/-- Mirrors wgpu's TextureFormat::is_srgb. -/
def TextureFormat.is_srgb (f : TextureFormat) : Bool := f.srgb

/-- Bit value of wgpu::TextureUsages::RENDER_ATTACHMENT. -/
def RENDER_ATTACHMENT : Nat := 16

/-- Mirrors wgpu::SurfaceConfiguration; present/alpha modes are opaque ids. -/
structure SurfaceConfiguration where
  usage : Nat
  format : TextureFormat
  width : Nat
  height : Nat
  present_mode : Nat
  alpha_mode : Nat
  view_formats : List TextureFormat
deriving DecidableEq, Repr

/-- Mirrors wgpu::SurfaceCapabilities as queried in State::new. -/
structure SurfaceCapabilities where
  formats : List TextureFormat
  present_modes : List Nat
  alpha_modes : List Nat
deriving DecidableEq, Repr

/-- RGBA clear color (wgpu::Color); exact rationals stand for the f64 literals. -/
structure Color where
  r : ℚ
  g : ℚ
  b : ℚ
  a : ℚ
deriving DecidableEq

/-- Mirrors wgpu::SurfaceError as matched in the event loop. -/
inductive SurfaceError where
  | Timeout
  | Outdated
  | Lost
  | OutOfMemory
deriving DecidableEq, Repr

/-- Observable effects of one event-dispatch step, in program order. -/
inductive Effect where
  | configure (cfg : SurfaceConfiguration)
  | beginRenderPass (clear : Color) (store : Bool)
  | setPipeline (pipeline : Nat)
  | draw (vstart vend istart iend : Nat)
  | submit
  | present
  | logError (e : SurfaceError)
  | requestRedraw
deriving DecidableEq

/-- Mirrors winit::event::VirtualKeyCode, keeping only what the loop matches. -/
inductive VirtualKeyCode where
  | Escape
  | otherKey (code : Nat)
deriving DecidableEq, Repr

/-- Mirrors winit::event::WindowEvent; `pressed` is ElementState::Pressed. -/
inductive WindowEvent where
  | CloseRequested
  | KeyboardInput (pressed : Bool) (virtual_keycode : Option VirtualKeyCode)
  | Resized (size : PhysicalSize)
  | otherWindowEvent
deriving DecidableEq, Repr

/-- Mirrors winit::event::Event as dispatched in run.  A redraw request
carries the outcome the surface acquire will report for that frame
(the environment's response to get_current_texture). -/
inductive Event where
  | windowEvent (window_id : Nat) (event : WindowEvent)
  | redrawRequested (window_id : Nat) (acquire : Except SurfaceError Unit)
  | mainEventsCleared
  | otherEvent

/-- Mirrors winit::event_loop::ControlFlow restricted to the values
the program uses: the running default and Exit. -/
inductive ControlFlow where
  | Poll
  | Exit
deriving DecidableEq, Repr

/-- Mirrors the struct State (GPU handles elided; the pipeline is an
opaque id; window identity is its id). -/
structure State where
  config : SurfaceConfiguration
  size : PhysicalSize
  window_id : Nat
  render_pipeline : Nat
deriving DecidableEq, Repr

/-- Format choice in State::new:
surface_caps.formats.iter().copied().find(|f| f.is_srgb()).unwrap_or(surface_caps.formats[0]);
the panic of formats[0] on an empty list is modelled as none. -/
def chooseSurfaceFormat (caps : SurfaceCapabilities) : Option TextureFormat :=
  match caps.formats.find? (fun f => f.is_srgb) with
  | some f => some f
  | none => caps.formats.head?

/-- Construction of the initial SurfaceConfiguration in State::new
(lines 60-74); panicking index [0] on empty capability lists is none. -/
def mkConfig (caps : SurfaceCapabilities) (size : PhysicalSize) :
    Option SurfaceConfiguration :=
  match chooseSurfaceFormat caps, caps.present_modes.head?,
      caps.alpha_modes.head? with
  | some format, some pm, some am =>
      some { usage := RENDER_ATTACHMENT, format := format,
             width := size.width, height := size.height,
             present_mode := pm, alpha_mode := am, view_formats := [] }
  | _, _, _ => none

/-- Mirrors State::resize (lines 149-156); a configure effect is emitted
exactly when surface.configure is called. -/
def State.resize (s : State) (size : PhysicalSize) : State × List Effect :=
  if size.height > 0 ∧ size.width > 0 then
    let config := { s.config with width := size.width, height := size.height }
    ({ s with size := size, config := config }, [Effect.configure config])
  else
    (s, [])

/-- Mirrors State::input (lines 158-160): always false. -/
def State.input (s : State) (event : WindowEvent) : Bool := false

/-- Mirrors State::update (lines 162-164): currently empty. -/
def State.update (s : State) : State := s

/-- Mirrors State::render (lines 166-206).  `acquire` is the result of
surface.get_current_texture(); on success the recorded pass, pipeline
bind, draw, submit and present appear in the trace in program order. -/
def State.render (s : State) (acquire : Except SurfaceError Unit) :
    Except SurfaceError Unit × List Effect :=
  match acquire with
  | Except.error e => (Except.error e, [])
  | Except.ok _ =>
      (Except.ok (),
       [Effect.beginRenderPass { r := 0.5, g := 0.4, b := 0.9, a := 1.0 } true,
        Effect.setPipeline s.render_pipeline,
        Effect.draw 0 3 0 1,
        Effect.submit,
        Effect.present])

/-- Mirrors the event-loop closure in run (lines 243-280): one dispatch
of a single event, returning the updated state, control flow and the
effects of this step. -/
def handleEvent (s : State) (flow : ControlFlow) (ev : Event) :
    State × ControlFlow × List Effect :=
  match ev with
  | Event.windowEvent wid we =>
      if wid = s.window_id then
        if ! s.input we then
          match we with
          | WindowEvent.CloseRequested =>
              (s, ControlFlow.Exit, [])
          | WindowEvent.KeyboardInput true (some VirtualKeyCode.Escape) =>
              (s, ControlFlow.Exit, [])
          | _ => (s, flow, [])
        else (s, flow, [])
      else (s, flow, [])
  | Event.redrawRequested wid acquire =>
      if wid = s.window_id then
        let s1 := s.update
        match s1.render acquire with
        | (Except.ok _, tr) => (s1, flow, tr)
        | (Except.error SurfaceError.Lost, tr) =>
            let (s2, tr2) := s1.resize s1.size
            (s2, flow, tr ++ tr2)
        | (Except.error SurfaceError.OutOfMemory, tr) =>
            (s1, ControlFlow.Exit, tr)
        | (Except.error e, tr) =>
            (s1, flow, tr ++ [Effect.logError e])
      else (s, flow, [])
  | Event.mainEventsCleared => (s, flow, [Effect.requestRedraw])
  | Event.otherEvent => (s, flow, [])

/-- The event loop as a fold over the delivered event stream.  Before
dispatching each event the loop checks the scheduling flag: once
ControlFlow.Exit is set, no further event is dispatched. -/
def runLoop : State → ControlFlow → List Event → State × ControlFlow × List Effect
  | s, flow, [] => (s, flow, [])
  | s, flow, ev :: rest =>
      match flow with
      | ControlFlow.Exit => (s, ControlFlow.Exit, [])
      | ControlFlow.Poll =>
          let (s1, f1, tr1) := handleEvent s flow ev
          let (s2, f2, tr2) := runLoop s1 f1 rest
          (s2, f2, tr1 ++ tr2)

/-- Concrete fixture: the 450 x 400 startup configuration used by the
end-to-end scenarios. -/
def demoConfig : SurfaceConfiguration :=
  { usage := RENDER_ATTACHMENT, format := { id := 0, srgb := true },
    width := 450, height := 400, present_mode := 0, alpha_mode := 0,
    view_formats := [] }

/-- Concrete fixture state at 450 x 400. -/
def demoState : State :=
  { config := demoConfig, size := { width := 450, height := 400 },
    window_id := 0, render_pipeline := 0 }

/-- Helper: once the flag is Exit, the loop dispatches nothing further. -/
theorem runLoop_exit (s : State) (evs : List Event) :
    runLoop s ControlFlow.Exit evs = (s, ControlFlow.Exit, []) := by
  cases evs <;> rfl

/-- C1: the event-loop closure has no arm for WindowEvent::Resized, so a
resize event for the owned window falls into the catch-all: the state
(in particular the 450 x 400 surface configuration) is unchanged and no
configure call is issued, contradicting the forwarding the spec requires. -/
theorem resize_event_ignored :
    handleEvent demoState ControlFlow.Poll
        (Event.windowEvent 0 (WindowEvent.Resized { width := 800, height := 600 }))
      = (demoState, ControlFlow.Poll, [])
    ∧ (handleEvent demoState ControlFlow.Poll
        (Event.windowEvent 0 (WindowEvent.Resized { width := 800, height := 600 }))).1.config.width
      = 450 := by
  constructor <;> rfl

/-- C2: on a successful acquire, render records one pass clearing to
(0.5, 0.4, 0.9, 1.0) with store enabled, binds the sole pipeline, draws
3 vertices and 1 instance, submits, presents, and returns Ok. -/
theorem render_success_trace (s : State) :
    s.render (Except.ok ())
      = (Except.ok (),
         [Effect.beginRenderPass { r := 0.5, g := 0.4, b := 0.9, a := 1.0 } true,
          Effect.setPipeline s.render_pipeline,
          Effect.draw 0 3 0 1,
          Effect.submit,
          Effect.present]) := by
  rfl

/-- C5: resizing with strictly positive width and height sets the
configuration's width and height to the input and reconfigures the
surface with exactly that configuration. -/
theorem resize_positive_updates_config (s : State) (sz : PhysicalSize)
    (hw : 0 < sz.width) (hh : 0 < sz.height) :
    (s.resize sz).1.config.width = sz.width
    ∧ (s.resize sz).1.config.height = sz.height
    ∧ (s.resize sz).2 = [Effect.configure (s.resize sz).1.config] := by
  simp [State.resize, hw, hh]

/-- Witness for C5 at the concrete size 800 x 600. -/
theorem resize_positive_updates_config_witness :
    0 < (800 : Nat) ∧ 0 < (600 : Nat)
    ∧ ((demoState.resize { width := 800, height := 600 }).1.config.width = 800
       ∧ (demoState.resize { width := 800, height := 600 }).1.config.height = 600
       ∧ (demoState.resize { width := 800, height := 600 }).2
         = [Effect.configure (demoState.resize { width := 800, height := 600 }).1.config]) :=
  ⟨by decide, by decide,
   resize_positive_updates_config demoState { width := 800, height := 600 }
     (by decide) (by decide)⟩

/-- C6: resizing with a zero width or height leaves the whole state
(configuration and stored size) unchanged and performs no reconfiguration;
the operation is total, so no error is raised. -/
theorem resize_zero_is_noop (s : State) (sz : PhysicalSize)
    (h : sz.width = 0 ∨ sz.height = 0) :
    s.resize sz = (s, []) := by
  rw [State.resize, if_neg]
  rintro ⟨h1, h2⟩
  rcases h with h | h <;> omega

/-- Witness for C6 at the concrete size 0 x 400. -/
theorem resize_zero_is_noop_witness :
    ((({ width := 0, height := 400 } : PhysicalSize).width = 0)
      ∨ (({ width := 0, height := 400 } : PhysicalSize).height = 0))
    ∧ demoState.resize { width := 0, height := 400 } = (demoState, []) :=
  ⟨Or.inl rfl,
   resize_zero_is_noop demoState { width := 0, height := 400 } (Or.inl rfl)⟩

/-- C10: resize, for any size whatsoever, never changes the format,
present mode, alpha mode, usage or view formats chosen at first
configuration, nor the window identity or pipeline. -/
theorem resize_preserves_immutable_fields (s : State) (sz : PhysicalSize) :
    (s.resize sz).1.config.format = s.config.format
    ∧ (s.resize sz).1.config.present_mode = s.config.present_mode
    ∧ (s.resize sz).1.config.alpha_mode = s.config.alpha_mode
    ∧ (s.resize sz).1.config.usage = s.config.usage
    ∧ (s.resize sz).1.config.view_formats = s.config.view_formats
    ∧ (s.resize sz).1.window_id = s.window_id
    ∧ (s.resize sz).1.render_pipeline = s.render_pipeline := by
  rw [State.resize]
  split <;> simp

/-- C3: when acquisition reports Lost on a redraw for the owned window,
the same step reconfigures the surface with the stored render target size
(positive in any configured state) and emits no pass, submit or present. -/
theorem lost_reconfigures_with_stored_size (s : State) (flow : ControlFlow)
    (hw : 0 < s.size.width) (hh : 0 < s.size.height) :
    handleEvent s flow
        (Event.redrawRequested s.window_id (Except.error SurfaceError.Lost))
      = ({ s with config := { s.config with width := s.size.width, height := s.size.height } },
         flow,
         [Effect.configure { s.config with width := s.size.width, height := s.size.height }]) := by
  simp [handleEvent, State.update, State.render, State.resize, hw, hh]

/-- Witness for C3 at the concrete 450 x 400 fixture state. -/
theorem lost_reconfigures_with_stored_size_witness :
    0 < demoState.size.width ∧ 0 < demoState.size.height
    ∧ handleEvent demoState ControlFlow.Poll
        (Event.redrawRequested demoState.window_id (Except.error SurfaceError.Lost))
      = ({ demoState with config := { demoState.config with width := demoState.size.width, height := demoState.size.height } },
         ControlFlow.Poll,
         [Effect.configure { demoState.config with width := demoState.size.width, height := demoState.size.height }]) :=
  ⟨by decide, by decide,
   lost_reconfigures_with_stored_size demoState ControlFlow.Poll
     (by decide) (by decide)⟩

/-- C4: when acquisition reports OutOfMemory, the step sets the control
flow to Exit without rendering, and the loop dispatches no further event
afterward, whatever events remain: the error is never retried. -/
theorem out_of_memory_terminates (s : State) (flow : ControlFlow)
    (rest : List Event) :
    handleEvent s flow
        (Event.redrawRequested s.window_id (Except.error SurfaceError.OutOfMemory))
      = (s, ControlFlow.Exit, [])
    ∧ runLoop s ControlFlow.Exit rest = (s, ControlFlow.Exit, []) := by
  refine ⟨?_, runLoop_exit s rest⟩
  simp [handleEvent, State.update, State.render]

/-- C7: a close request or an Escape key press for the owned window,
delivered at any point in the stream (any prior state, any pending
events), terminates the loop at once: the final flow is Exit and no
effect at all — in particular no render — happens from then on. -/
theorem close_or_escape_terminates (s : State) (flow : ControlFlow)
    (rest : List Event) (we : WindowEvent)
    (h : we = WindowEvent.CloseRequested
         ∨ we = WindowEvent.KeyboardInput true (some VirtualKeyCode.Escape)) :
    runLoop s flow (Event.windowEvent s.window_id we :: rest)
      = (s, ControlFlow.Exit, []) := by
  cases flow
  · rcases h with h | h <;> subst h <;>
      simp [runLoop, handleEvent, State.input, runLoop_exit]
  · exact rfl

/-- Witness for C7: a close request as the very first event, before any
redraw, at the concrete fixture state. -/
theorem close_or_escape_terminates_witness :
    (WindowEvent.CloseRequested = WindowEvent.CloseRequested
      ∨ WindowEvent.CloseRequested
        = WindowEvent.KeyboardInput true (some VirtualKeyCode.Escape))
    ∧ runLoop demoState ControlFlow.Poll
        (Event.windowEvent demoState.window_id WindowEvent.CloseRequested
          :: [Event.mainEventsCleared,
              Event.redrawRequested demoState.window_id (Except.ok ())])
      = (demoState, ControlFlow.Exit, []) :=
  ⟨Or.inl rfl,
   close_or_escape_terminates demoState ControlFlow.Poll
     [Event.mainEventsCleared,
      Event.redrawRequested demoState.window_id (Except.ok ())]
     WindowEvent.CloseRequested (Or.inl rfl)⟩

/-- C9: when acquisition reports Outdated or Timeout, the step logs the
error and does nothing else: the state (configuration included) is
unchanged and the control flow keeps its previous value, so the loop goes
on to the next frame. -/
theorem outdated_timeout_logs_and_skips (s : State) (flow : ControlFlow)
    (e : SurfaceError)
    (h : e = SurfaceError.Outdated ∨ e = SurfaceError.Timeout) :
    handleEvent s flow (Event.redrawRequested s.window_id (Except.error e))
      = (s, flow, [Effect.logError e]) := by
  rcases h with h | h <;> subst h <;>
    simp [handleEvent, State.update, State.render]

/-- Witness for C9 at Outdated on the concrete fixture state. -/
theorem outdated_timeout_logs_and_skips_witness :
    (SurfaceError.Outdated = SurfaceError.Outdated
      ∨ SurfaceError.Outdated = SurfaceError.Timeout)
    ∧ handleEvent demoState ControlFlow.Poll
        (Event.redrawRequested demoState.window_id
          (Except.error SurfaceError.Outdated))
      = (demoState, ControlFlow.Poll, [Effect.logError SurfaceError.Outdated]) :=
  ⟨Or.inl rfl,
   outdated_timeout_logs_and_skips demoState ControlFlow.Poll
     SurfaceError.Outdated (Or.inl rfl)⟩

/-- Helper: a successful find? splits the list at the first element
satisfying the predicate. -/
theorem find?_eq_some_split (p : TextureFormat → Bool) :
    ∀ (l : List TextureFormat) (a : TextureFormat), l.find? p = some a →
      ∃ l1 l2, l = l1 ++ a :: l2 ∧ (∀ x ∈ l1, p x = false) ∧ p a = true := by
  intro l
  induction l with
  | nil => intro a h; simp [List.find?] at h
  | cons b t ih =>
      intro a h
      by_cases hb : p b = true
      · rw [List.find?_cons_of_pos _ hb] at h
        refine ⟨[], t, ?_, ?_, ?_⟩
        · simpa using (Option.some.inj h).symm ▸ rfl
        · intro x hx; simp at hx
        · cases Option.some.inj h; exact hb
      · rw [List.find?_cons_of_neg _ hb] at h
        obtain ⟨l1, l2, heq, hf, hp⟩ := ih a h
        exact ⟨b :: l1, l2, by simp [heq], by
          intro x hx
          rcases List.mem_cons.mp hx with hx | hx
          · subst hx; exact Bool.eq_false_iff.mpr hb
          · exact hf x hx, hp⟩

/-- C8: whenever first configuration succeeds, the chosen format is the
first surface-reported sRGB format — the reported list splits as
non-sRGB prefix, chosen format, rest — or, when no reported format is
sRGB, the first reported format; the present mode and alpha mode are the
first reported ones. -/
theorem first_config_choices (caps : SurfaceCapabilities) (size : PhysicalSize)
    (cfg : SurfaceConfiguration) (h : mkConfig caps size = some cfg) :
    ((∃ l1 l2, caps.formats = l1 ++ cfg.format :: l2
        ∧ (∀ x ∈ l1, x.is_srgb = false) ∧ cfg.format.is_srgb = true)
      ∨ ((∀ f ∈ caps.formats, f.is_srgb = false)
          ∧ caps.formats.head? = some cfg.format))
    ∧ caps.present_modes.head? = some cfg.present_mode
    ∧ caps.alpha_modes.head? = some cfg.alpha_mode := by
  unfold mkConfig at h
  rcases hc : chooseSurfaceFormat caps with _ | format <;> rw [hc] at h
  · simp at h
  rcases hp : caps.present_modes.head? with _ | pm <;> rw [hp] at h
  · simp at h
  rcases ha : caps.alpha_modes.head? with _ | am <;> rw [ha] at h
  · simp at h
  simp only [Option.some.injEq] at h
  subst h
  refine ⟨?_, rfl, rfl⟩
  unfold chooseSurfaceFormat at hc
  rcases hf : caps.formats.find? (fun f => f.is_srgb) with _ | g <;> rw [hf] at hc
  · right
    refine ⟨?_, hc⟩
    intro f hmem
    have := List.find?_eq_none.mp hf f hmem
    simpa using this
  · left
    have hg : g = format := Option.some.inj hc
    obtain ⟨l1, l2, heq, hfalse, htrue⟩ :=
      find?_eq_some_split (fun f => f.is_srgb) caps.formats g hf
    subst hg
    exact ⟨l1, l2, heq, hfalse, htrue⟩

/-- Witness for C8: capabilities whose second format is the first sRGB
one; the configuration picks it, together with the first present and
alpha modes. -/
theorem first_config_choices_witness :
    mkConfig { formats := [{ id := 3, srgb := false }, { id := 5, srgb := true }],
               present_modes := [7, 8], alpha_modes := [9] }
        { width := 450, height := 400 }
      = some { usage := RENDER_ATTACHMENT, format := { id := 5, srgb := true },
               width := 450, height := 400, present_mode := 7, alpha_mode := 9,
               view_formats := [] }
    ∧ (((∃ l1 l2,
          [({ id := 3, srgb := false } : TextureFormat), { id := 5, srgb := true }]
            = l1 ++ ({ id := 5, srgb := true } : TextureFormat) :: l2
          ∧ (∀ x ∈ l1, x.is_srgb = false)
          ∧ ({ id := 5, srgb := true } : TextureFormat).is_srgb = true)
        ∨ ((∀ f ∈ [({ id := 3, srgb := false } : TextureFormat), { id := 5, srgb := true }],
              f.is_srgb = false)
            ∧ [({ id := 3, srgb := false } : TextureFormat), { id := 5, srgb := true }].head?
              = some { id := 5, srgb := true }))
       ∧ ([7, 8] : List Nat).head? = some 7
       ∧ ([9] : List Nat).head? = some 9) :=
  ⟨by decide,
   first_config_choices
     { formats := [{ id := 3, srgb := false }, { id := 5, srgb := true }],
       present_modes := [7, 8], alpha_modes := [9] }
     { width := 450, height := 400 }
     { usage := RENDER_ATTACHMENT, format := { id := 5, srgb := true },
       width := 450, height := 400, present_mode := 7, alpha_mode := 9,
       view_formats := [] }
     (by decide)⟩
